import Mathlib

/-!
# Verification of the Tiki context-measurement scripts

Shallow embedding of `.tiki/scripts/measure-context.py` and
`.tiki/scripts/compare-context.py`.

Modelling conventions:
* The filesystem is an abstract map `FS : String → Option String` giving the
  text content of a readable file (`none` models every read failure: missing
  file, decode error, permission error — they are indistinguishable to the
  scripts, which catch all exceptions with a bare `except:`).
* Directory listings are an abstract map `Dirs : String → Option (List String)`
  (`none` = the path does not exist as a directory).
* The tiktoken encoder is opaque: `Tok : String → Nat` gives
  `len(enc.encode(content))`.
* Python's `str.split(sep)` for a one-character separator is embedded as
  `pySplit` on the character list of the string.
* Python `dict`s built from iteration over fixed key lists are embedded as
  association lists `List (String × _)` in insertion order.
* Python float division in percentage computations is embedded exactly over
  `ℚ`; the real code computes the same quantity in IEEE floats only for
  display.
* A raw `dict` index (`d[k]`, raising `KeyError` when absent) is embedded as
  an `Option`-valued lookup, `none` modelling the raised exception.
-/

namespace Tiki

/-- Abstract filesystem: content of a file, or `none` on any read failure. -/
def FS : Type := String → Option String

/-- Abstract directory listing: entries of a directory, or `none` when the
directory does not exist. -/
def Dirs : Type := String → Option (List String)

/-- Opaque tokenizer: `len(enc.encode(content))` for `cl100k_base`. -/
def Tok : Type := String → Nat

/-- Python `content.split(c)` for a single-character separator `c`, on the
character list of the string: splitting on every occurrence of `c`, keeping
empty segments, with a lone empty segment for the empty string. -/
def pySplit (c : Char) : List Char → List (List Char)
  | [] => [[]]
  | x :: xs =>
    if x = c then [] :: pySplit c xs
    else
      match pySplit c xs with
      | [] => [[x]]
      | h :: t => (x :: h) :: t

/-- `count_tokens(filepath)` from both scripts (the two copies are
identical): reads the file, returning the tokenizer count of the content and
`len(content.split('\n'))`; the bare `except:` clause turns every failure
into `(0, 0)`. -/
def count_tokens (tok : Tok) (fs : FS) (filepath : String) : Nat × Nat :=
  match fs filepath with
  | some content => (tok content, (pySplit '\n' content.data).length)
  | none => (0, 0)

/-- Python `filename.endswith(suffix)`: a character-level suffix test. -/
def pyEndsWith (s suffix : String) : Bool :=
  List.isSuffixOf suffix.data s.data

/-- Per-file metric as stored in `prompt_files` entries and in
`measure_current` of the compare script: token and line counts. -/
structure FileMetric where
  tokens : Nat
  lines : Nat
deriving DecidableEq, Repr

/-- Per-command record built by `measure_commands` of measure-context.py.
The script also stores a derived `pct_of_200k` float
(`round(tokens / 200000 * 100, 2)`); that IEEE-float field is presentation
data derived from `tokens` and is outside this integer/string embedding. -/
structure CommandMetric where
  path : String
  tokens : Nat
  lines : Nat
deriving DecidableEq, Repr

/-- The fixed `(name, path)` command list hardcoded in both scripts. -/
def commandsList : List (String × String) :=
  [("execute.md", ".claude/commands/tiki/execute.md"),
   ("plan-issue.md", ".claude/commands/tiki/plan-issue.md"),
   ("define-requirements.md", ".claude/commands/tiki/define-requirements.md"),
   ("research.md", ".claude/commands/tiki/research.md"),
   ("debug.md", ".claude/commands/tiki/debug.md"),
   ("release-yolo.md", ".claude/commands/tiki/release-yolo.md")]

/-- `measure_commands()` from measure-context.py: one `CommandMetric` per
entry of the fixed list, in declaration order. -/
def measure_commands (tok : Tok) (fs : FS) : List (String × CommandMetric) :=
  commandsList.map fun nm =>
    let m := count_tokens tok fs nm.2
    (nm.1, { path := nm.2, tokens := m.1, lines := m.2 })

/-- `measure_execute_invocation()` from measure-context.py: the five cost
components (three hardcoded estimates plus two live-measured token counts),
their sum, and the remaining budget out of 200000. The derived `pct_used`
float is presentation data outside this embedding. -/
structure InvocationEstimate where
  claude_code_system_prompt : Nat
  execute_md : Nat
  claude_md : Nat
  plan_file : Nat
  prev_summaries : Nat
  total_tokens : Nat
  remaining : Int
deriving DecidableEq, Repr

def measure_execute_invocation (tok : Tok) (fs : FS) : InvocationEstimate :=
  let execTokens := (count_tokens tok fs ".claude/commands/tiki/execute.md").1
  let claudeTokens := (count_tokens tok fs "CLAUDE.md").1
  let total := 3000 + execTokens + claudeTokens + 1500 + 500
  { claude_code_system_prompt := 3000
    execute_md := execTokens
    claude_md := claudeTokens
    plan_file := 1500
    prev_summaries := 500
    total_tokens := total
    remaining := 200000 - (total : Int) }

/-- The fixed prompt-directory list hardcoded in both scripts. -/
def promptDirs : List String :=
  [".tiki/prompts/execute", ".tiki/prompts/plan", ".tiki/prompts/requirements",
   ".tiki/prompts/research", ".tiki/prompts/debug", ".tiki/prompts/release"]

/-- The loop body of `measure_prompt_files()` from measure-context.py,
generalised over the directory list for induction: a directory that does not
exist is skipped, and a directory whose `.md`-filtered listing is empty
contributes no key (the `if dir_results:` guard). -/
def measurePromptDirs (tok : Tok) (fs : FS) (dirs : Dirs) :
    List String → List (String × List (String × FileMetric))
  | [] => []
  | d :: ds =>
    match dirs d with
    | none => measurePromptDirs tok fs dirs ds
    | some names =>
      let dirResults := (names.filter (fun fn => pyEndsWith fn ".md")).map fun fn =>
        let m := count_tokens tok fs (d ++ "/" ++ fn)
        (fn, FileMetric.mk m.1 m.2)
      if dirResults.isEmpty then measurePromptDirs tok fs dirs ds
      else (d, dirResults) :: measurePromptDirs tok fs dirs ds

/-- `measure_prompt_files()` from measure-context.py over the fixed list. -/
def measure_prompt_files (tok : Tok) (fs : FS) (dirs : Dirs) :
    List (String × List (String × FileMetric)) :=
  measurePromptDirs tok fs dirs promptDirs

/-- The `totals` record computed in `main()` of measure-context.py. -/
structure Totals where
  all_large_commands_tokens : Nat
  all_large_commands_lines : Nat
deriving DecidableEq, Repr

/-- The full record assembled by `main()` of measure-context.py (the
snapshot that `--json` persists as the baseline). -/
structure Snapshot where
  timestamp : String
  commands : List (String × CommandMetric)
  execute_invocation : InvocationEstimate
  prompt_files : List (String × List (String × FileMetric))
  totals : Totals
deriving DecidableEq, Repr

/-- Snapshot assembly in `main()` of measure-context.py: the totals are the
sums of the `tokens` and `lines` fields over `data['commands'].values()`
alone; `prompt_files` contributes nothing to them. -/
def buildSnapshot (tok : Tok) (fs : FS) (dirs : Dirs) (timestamp : String) :
    Snapshot :=
  let cmds := measure_commands tok fs
  { timestamp := timestamp
    commands := cmds
    execute_invocation := measure_execute_invocation tok fs
    prompt_files := measure_prompt_files tok fs dirs
    totals :=
      { all_large_commands_tokens := (cmds.map fun c => c.2.tokens).sum
        all_large_commands_lines := (cmds.map fun c => c.2.lines).sum } }

/-- `measure_current()` from compare-context.py: the same fixed command list,
but each entry keeps only `tokens` and `lines`. -/
def measure_current (tok : Tok) (fs : FS) : List (String × FileMetric) :=
  commandsList.map fun nm =>
    let m := count_tokens tok fs nm.2
    (nm.1, FileMetric.mk m.1 m.2)

/-- The defaulted baseline lookup in compare-context.py's `main()`:
`baseline['commands'].get(name, {}).get('tokens', 0)`. -/
def lookupBaselineTokens (bl : List (String × CommandMetric))
    (name : String) : Nat :=
  match bl.lookup name with
  | some m => m.tokens
  | none => 0

/-- One line of the comparison table in compare-context.py's `main()`. -/
structure DeltaRow where
  name : String
  baseline_tokens : Nat
  current_tokens : Nat
  change : Int
  pct_change : ℚ
deriving DecidableEq, Repr

/-- The `for name, curr in current.items():` loop of compare-context.py's
`main()`: builds one `DeltaRow` per current entry (in current's order) while
accumulating `total_baseline` and `total_current`. -/
def compareLoop (bl : List (String × CommandMetric)) :
    List (String × FileMetric) → List DeltaRow × Nat × Nat
  | [] => ([], 0, 0)
  | nc :: rest =>
    let baseTokens := lookupBaselineTokens bl nc.1
    let currTokens := nc.2.tokens
    let row : DeltaRow :=
      { name := nc.1
        baseline_tokens := baseTokens
        current_tokens := currTokens
        change := (currTokens : Int) - (baseTokens : Int)
        pct_change :=
          if 0 < baseTokens then
            (((currTokens : Int) - (baseTokens : Int) : Int) : ℚ)
              / (baseTokens : ℚ) * 100
          else 0 }
    let r := compareLoop bl rest
    (row :: r.1, baseTokens + r.2.1, currTokens + r.2.2)

/-- The comparison data computed by compare-context.py's `main()`: the delta
rows, the total row, and the effective-savings block. -/
structure ComparisonResult where
  rows : List DeltaRow
  total_baseline : Nat
  total_current : Nat
  total_change : Int
  total_pct : ℚ
  before_total : Nat
  after_total : Nat
  savings : Int
  reduction_pct : ℚ
deriving DecidableEq, Repr

/-- The comparison computation of compare-context.py's `main()` on a loaded
baseline command map and a current command map. The effective-savings block
uses the raw indexes `baseline['commands']['execute.md']['tokens']` and
`current['execute.md']['tokens']`; a raw index on an absent key raises
`KeyError`, modelled here by returning `none`. -/
def compareCore (bl : List (String × CommandMetric))
    (cur : List (String × FileMetric)) : Option ComparisonResult :=
  let r := compareLoop bl cur
  let totalChange : Int := (r.2.2 : Int) - (r.2.1 : Int)
  match bl.lookup "execute.md", cur.lookup "execute.md" with
  | some bm, some cm =>
    let beforeTotal := 3000 + bm.tokens + 1115 + 1500 + 500
    let afterTotal := 3000 + cm.tokens + 1115 + 1500 + 500
    let savings : Int := (beforeTotal : Int) - (afterTotal : Int)
    some
      { rows := r.1
        total_baseline := r.2.1
        total_current := r.2.2
        total_change := totalChange
        total_pct :=
          if 0 < r.2.1 then (totalChange : ℚ) / (r.2.1 : ℚ) * 100 else 0
        before_total := beforeTotal
        after_total := afterTotal
        savings := savings
        reduction_pct := (savings : ℚ) / (beforeTotal : ℚ) * 100 }
  | _, _ => none

/-- Result of `load_baseline()` from compare-context.py: either the loaded
snapshot, or not-found together with the guidance lines the function prints
before returning `None`. -/
inductive LoadResult where
  | notFound (guidance : List String)
  | found (s : Snapshot)

/-- The guidance printed by `load_baseline()` when the baseline file is
missing. -/
def baselineGuidance : List String :=
  ["ERROR: No baseline found. Run first:",
   "  python .tiki/scripts/measure-context.py --json > .tiki/context-baseline.json"]

/-- `load_baseline()` from compare-context.py: the baseline store is
abstracted as `Option Snapshot` (`none` models a missing
`.tiki/context-baseline.json`, i.e. the caught `FileNotFoundError`). -/
def load_baseline (bf : Option Snapshot) : LoadResult :=
  match bf with
  | none => LoadResult.notFound baselineGuidance
  | some s => LoadResult.found s

/-- Observable outcome of compare-context.py's `main()`: guidance with no
comparison performed, an uncaught `KeyError`, or a completed comparison. -/
inductive CompareOutput where
  | noBaseline (guidance : List String)
  | keyError
  | ok (r : ComparisonResult)

/-- `main()` of compare-context.py: load the baseline (returning after the
guidance when it is missing), measure the current state, and compare. -/
def compareMain (bf : Option Snapshot) (tok : Tok) (fs : FS) : CompareOutput :=
  match load_baseline bf with
  | LoadResult.notFound g => CompareOutput.noBaseline g
  | LoadResult.found b =>
    match compareCore b.commands (measure_current tok fs) with
    | none => CompareOutput.keyError
    | some r => CompareOutput.ok r

/-- Baseline command map of the C6 scenario: `execute.md` at 10000 tokens. -/
def baselineC6 : List (String × CommandMetric) :=
  [("execute.md", ⟨".claude/commands/tiki/execute.md", 10000, 250⟩)]

/-- Current command map of the C6 scenario: `execute.md` at 7000 tokens. -/
def currentC6 : List (String × FileMetric) :=
  [("execute.md", ⟨7000, 180⟩)]

/-- A drifted baseline whose command map lacks `execute.md` (e.g. written by
an older version of the measure script). -/
def baselineNoExec : Snapshot :=
  { timestamp := "2025-01-01T00:00:00"
    commands := [("plan-issue.md", ⟨".claude/commands/tiki/plan-issue.md", 4000, 120⟩)]
    execute_invocation :=
      { claude_code_system_prompt := 3000, execute_md := 0, claude_md := 0
        plan_file := 1500, prev_summaries := 500, total_tokens := 5000
        remaining := 195000 }
    prompt_files := []
    totals := { all_large_commands_tokens := 4000, all_large_commands_lines := 120 } }

/-- A JSON document as written by `json.dumps` in measure-context.py and
read back by `json.load` in compare-context.py. The snapshot schema only
uses numbers, strings and objects; objects preserve insertion order, and a
`dict` never carries duplicate keys. Python ints are arbitrary precision, so
an integer field survives the text layer exactly; the text
serialisation/parsing pair itself is the stdlib `json` module, external to
this embedding. -/
inductive Json where
  | num (n : Int)
  | str (s : String)
  | obj (fields : List (String × Json))

/-- Key lookup in a JSON object, as `loaded[key]` does on the parsed dict. -/
def jGet (j : Json) (k : String) : Option Json :=
  match j with
  | Json.obj flds => flds.lookup k
  | _ => none

/-- Serialisation of one commands entry (the derived `pct_of_200k` float is
not part of the integer/string round-trip contract). -/
def encodeCommandMetric (m : CommandMetric) : Json :=
  Json.obj [("path", Json.str m.path), ("tokens", Json.num m.tokens),
    ("lines", Json.num m.lines)]

def decodeCommandMetric (j : Json) : Option CommandMetric :=
  match jGet j "path", jGet j "tokens", jGet j "lines" with
  | some (Json.str p), some (Json.num t), some (Json.num l) =>
    some ⟨p, t.toNat, l.toNat⟩
  | _, _, _ => none

/-- Serialisation of the `commands` object: one key per command name, in
insertion order. -/
def encodeCommands (cmds : List (String × CommandMetric)) : Json :=
  Json.obj (cmds.map fun p => (p.1, encodeCommandMetric p.2))

def decodeCommandEntries :
    List (String × Json) → Option (List (String × CommandMetric))
  | [] => some []
  | p :: rest =>
    match decodeCommandMetric p.2, decodeCommandEntries rest with
    | some m, some ms => some ((p.1, m) :: ms)
    | _, _ => none

def decodeCommands (j : Json) : Option (List (String × CommandMetric)) :=
  match j with
  | Json.obj flds => decodeCommandEntries flds
  | _ => none

def encodeFileMetric (m : FileMetric) : Json :=
  Json.obj [("tokens", Json.num m.tokens), ("lines", Json.num m.lines)]

def decodeFileMetric (j : Json) : Option FileMetric :=
  match jGet j "tokens", jGet j "lines" with
  | some (Json.num t), some (Json.num l) => some ⟨t.toNat, l.toNat⟩
  | _, _ => none

/-- Serialisation of one directory's file map inside `prompt_files`. -/
def encodeDirFiles (files : List (String × FileMetric)) : Json :=
  Json.obj (files.map fun p => (p.1, encodeFileMetric p.2))

def decodeDirEntries :
    List (String × Json) → Option (List (String × FileMetric))
  | [] => some []
  | p :: rest =>
    match decodeFileMetric p.2, decodeDirEntries rest with
    | some m, some ms => some ((p.1, m) :: ms)
    | _, _ => none

def decodeDirFiles (j : Json) : Option (List (String × FileMetric)) :=
  match j with
  | Json.obj flds => decodeDirEntries flds
  | _ => none

/-- Serialisation of the `prompt_files` object: one key per directory. -/
def encodePromptFiles
    (pf : List (String × List (String × FileMetric))) : Json :=
  Json.obj (pf.map fun p => (p.1, encodeDirFiles p.2))

def decodePromptEntries :
    List (String × Json) →
      Option (List (String × List (String × FileMetric)))
  | [] => some []
  | p :: rest =>
    match decodeDirFiles p.2, decodePromptEntries rest with
    | some fsOfDir, some ds => some ((p.1, fsOfDir) :: ds)
    | _, _ => none

def decodePromptFiles (j : Json) :
    Option (List (String × List (String × FileMetric))) :=
  match j with
  | Json.obj flds => decodePromptEntries flds
  | _ => none

/-- Serialisation of the `execute_invocation` record (the derived `pct_used`
float is not part of the integer/string round-trip contract). -/
def encodeInvocation (e : InvocationEstimate) : Json :=
  Json.obj
    [("components", Json.obj
        [("claude_code_system_prompt", Json.num e.claude_code_system_prompt),
         ("execute_md", Json.num e.execute_md),
         ("claude_md", Json.num e.claude_md),
         ("plan_file", Json.num e.plan_file),
         ("prev_summaries", Json.num e.prev_summaries)]),
     ("total_tokens", Json.num e.total_tokens),
     ("remaining", Json.num e.remaining)]

def decodeInvocation (j : Json) : Option InvocationEstimate :=
  match jGet j "components", jGet j "total_tokens", jGet j "remaining" with
  | some comps, some (Json.num tt), some (Json.num rem) =>
    match jGet comps "claude_code_system_prompt", jGet comps "execute_md",
        jGet comps "claude_md", jGet comps "plan_file",
        jGet comps "prev_summaries" with
    | some (Json.num sys), some (Json.num ex), some (Json.num cl),
        some (Json.num pl), some (Json.num pv) =>
      some ⟨sys.toNat, ex.toNat, cl.toNat, pl.toNat, pv.toNat, tt.toNat, rem⟩
    | _, _, _, _, _ => none
  | _, _, _ => none

def encodeTotals (t : Totals) : Json :=
  Json.obj
    [("all_large_commands_tokens", Json.num t.all_large_commands_tokens),
     ("all_large_commands_lines", Json.num t.all_large_commands_lines)]

def decodeTotals (j : Json) : Option Totals :=
  match jGet j "all_large_commands_tokens",
      jGet j "all_large_commands_lines" with
  | some (Json.num tks), some (Json.num lns) => some ⟨tks.toNat, lns.toNat⟩
  | _, _ => none

/-- The baseline store's save path: the JSON document that
`measure-context.py --json > .tiki/context-baseline.json` writes for a given
snapshot (`json.dumps(data, indent=2)`). -/
def encodeSnapshot (s : Snapshot) : Json :=
  Json.obj
    [("timestamp", Json.str s.timestamp),
     ("commands", encodeCommands s.commands),
     ("execute_invocation", encodeInvocation s.execute_invocation),
     ("prompt_files", encodePromptFiles s.prompt_files),
     ("totals", encodeTotals s.totals)]

/-- The baseline store's load path: reading the parsed JSON document back
into a snapshot record, field by field as compare-context.py accesses it. -/
def decodeSnapshot (j : Json) : Option Snapshot :=
  match jGet j "timestamp", jGet j "commands", jGet j "execute_invocation",
      jGet j "prompt_files", jGet j "totals" with
  | some (Json.str ts), some cj, some ej, some pj, some tj =>
    match decodeCommands cj, decodeInvocation ej, decodePromptFiles pj,
        decodeTotals tj with
    | some cs, some ei, some pf, some t => some ⟨ts, cs, ei, pf, t⟩
    | _, _, _, _ => none
  | _, _, _, _, _ => none

end Tiki

namespace Tiki

theorem pySplit_ne_nil (c : Char) (l : List Char) : pySplit c l ≠ [] := by
  cases l with
  | nil => simp [pySplit]
  | cons x xs =>
    simp only [pySplit]
    split
    · simp
    · split
      · simp
      · simp

/-- The number of segments produced by splitting on `c` is one more than the
number of occurrences of `c`. -/
theorem pySplit_length (c : Char) (l : List Char) :
    (pySplit c l).length = l.count c + 1 := by
  induction l with
  | nil => simp [pySplit]
  | cons x xs ih =>
    simp only [pySplit]
    by_cases hx : x = c
    · subst hx
      simp [List.count_cons, ih]
    · rw [if_neg hx]
      cases hs : pySplit c xs with
      | nil => exact absurd hs (pySplit_ne_nil c xs)
      | cons h t =>
        have := ih
        rw [hs] at this
        simp only [List.length_cons] at this ⊢
        rw [List.count_cons]
        simp [hx, this]

/-- C2: for every unreadable path, `count_tokens` returns the zero metric
`(tokens = 0, lines = 0)`; being a total Lean function, it propagates no
exception. -/
theorem count_tokens_unreadable (tok : Tok) (fs : FS) (p : String)
    (h : fs p = none) : count_tokens tok fs p = (0, 0) := by
  simp [count_tokens, h]

theorem count_tokens_unreadable_witness :
    (fun _ : String => (none : Option String)) "missing.md" = none ∧
    count_tokens (fun _ => 0) (fun _ => none) "missing.md" = (0, 0) :=
  ⟨rfl, count_tokens_unreadable (fun _ => 0) (fun _ => none) "missing.md" rfl⟩

/-- C9: for every readable file, the line count reported by `count_tokens`
equals the number of segments obtained by splitting the content on the line
separator, which is one plus the number of line-separator characters in the
content (the trailing empty segment is counted). -/
theorem count_tokens_lines (tok : Tok) (fs : FS) (p : String) (c : String)
    (h : fs p = some c) :
    (count_tokens tok fs p).2 = (pySplit '\n' c.data).length ∧
    (count_tokens tok fs p).2 = c.data.count '\n' + 1 := by
  constructor
  · simp [count_tokens, h]
  · simp [count_tokens, h, pySplit_length]

theorem count_tokens_lines_witness :
    (fun q : String => if q = "a.md" then some "ab\ncd\n" else none) "a.md"
      = some "ab\ncd\n" ∧
    ((count_tokens (fun _ => 0)
        (fun q => if q = "a.md" then some "ab\ncd\n" else none) "a.md").2
      = (pySplit '\n' ("ab\ncd\n" : String).data).length ∧
     (count_tokens (fun _ => 0)
        (fun q => if q = "a.md" then some "ab\ncd\n" else none) "a.md").2
      = ("ab\ncd\n" : String).data.count '\n' + 1) :=
  ⟨by decide,
   count_tokens_lines (fun _ => 0)
     (fun q => if q = "a.md" then some "ab\ncd\n" else none) "a.md"
     "ab\ncd\n" (by decide)⟩

theorem measurePromptDirs_not_mem (tok : Tok) (fs : FS) (dirs : Dirs)
    (d : String) (names : List String) (hd : dirs d = some names)
    (hmd : names.filter (fun fn => pyEndsWith fn ".md") = [])
    (ds : List String) :
    d ∉ (measurePromptDirs tok fs dirs ds).map Prod.fst := by
  induction ds with
  | nil => simp [measurePromptDirs]
  | cons e ds ih =>
    by_cases hde : e = d
    · subst hde
      simp only [measurePromptDirs, hd, hmd]
      simpa using ih
    · cases he : dirs e with
      | none => simpa [measurePromptDirs, he] using ih
      | some names2 =>
        simp only [measurePromptDirs, he]
        split
        · exact ih
        · simp only [List.map_cons, List.mem_cons]
          rintro (rfl | hmem)
          · exact hde rfl
          · exact ih hmem

theorem measurePromptDirs_values_ne_nil (tok : Tok) (fs : FS) (dirs : Dirs)
    (ds : List String) :
    ∀ e ∈ measurePromptDirs tok fs dirs ds, e.2 ≠ [] := by
  induction ds with
  | nil => simp [measurePromptDirs]
  | cons d ds ih =>
    intro e he
    cases hd : dirs d with
    | none =>
      simp only [measurePromptDirs, hd] at he
      exact ih e he
    | some names =>
      simp only [measurePromptDirs, hd] at he
      split at he
      · exact ih e he
      · rcases List.mem_cons.mp he with rfl | hmem
        · rename_i hne
          simpa [List.isEmpty_iff] using hne
        · exact ih e hmem

/-- C10: a prompt directory that exists on disk but contains no file whose
name ends in `.md` is omitted as a key of `prompt_files` (just like a
non-existent directory), and consequently every key present in
`prompt_files` maps to a nonempty list of file entries. -/
theorem measure_prompt_files_omits_mdless (tok : Tok) (fs : FS) (dirs : Dirs)
    (d : String) (names : List String) (hd : dirs d = some names)
    (hmd : names.filter (fun fn => pyEndsWith fn ".md") = []) :
    d ∉ (measure_prompt_files tok fs dirs).map Prod.fst ∧
    ∀ e ∈ measure_prompt_files tok fs dirs, e.2 ≠ [] :=
  ⟨measurePromptDirs_not_mem tok fs dirs d names hd hmd promptDirs,
   measurePromptDirs_values_ne_nil tok fs dirs promptDirs⟩

theorem measure_prompt_files_omits_mdless_witness :
    (fun q : String =>
        if q = ".tiki/prompts/execute" then some ["notes.txt"] else none)
      ".tiki/prompts/execute" = some ["notes.txt"] ∧
    List.filter (fun fn => pyEndsWith fn ".md") ["notes.txt"] = [] ∧
    (".tiki/prompts/execute" ∉
      (measure_prompt_files (fun _ => 0) (fun _ => none)
        (fun q => if q = ".tiki/prompts/execute" then some ["notes.txt"]
                  else none)).map Prod.fst ∧
     ∀ e ∈ measure_prompt_files (fun _ => 0) (fun _ => none)
        (fun q => if q = ".tiki/prompts/execute" then some ["notes.txt"]
                  else none), e.2 ≠ []) :=
  ⟨by decide, by decide,
   measure_prompt_files_omits_mdless (fun _ => 0) (fun _ => none)
     (fun q => if q = ".tiki/prompts/execute" then some ["notes.txt"] else none)
     ".tiki/prompts/execute" ["notes.txt"] (by decide) (by decide)⟩

/-- C8: every snapshot assembled by measure-context.py's `main()` has totals
equal to the sums of its commands entries' token and line counts; the
`prompt_files` metrics are kept in their own field and are not folded into
these sums. -/
theorem buildSnapshot_totals (tok : Tok) (fs : FS) (dirs : Dirs)
    (ts : String) :
    (buildSnapshot tok fs dirs ts).totals.all_large_commands_tokens
      = ((buildSnapshot tok fs dirs ts).commands.map fun c => c.2.tokens).sum ∧
    (buildSnapshot tok fs dirs ts).totals.all_large_commands_lines
      = ((buildSnapshot tok fs dirs ts).commands.map fun c => c.2.lines).sum :=
  ⟨rfl, rfl⟩

/-- C3: each delta row's `pct_change` is 0 when its baseline token count is 0
(whatever the current count is), and is otherwise exactly
`(current - baseline) / baseline * 100`. -/
theorem compareLoop_pct_change (bl : List (String × CommandMetric))
    (cur : List (String × FileMetric)) :
    ∀ row ∈ (compareLoop bl cur).1,
      (row.baseline_tokens = 0 → row.pct_change = 0) ∧
      (row.baseline_tokens ≠ 0 →
        row.pct_change =
          ((row.current_tokens : ℚ) - (row.baseline_tokens : ℚ))
            / (row.baseline_tokens : ℚ) * 100) := by
  induction cur with
  | nil => simp [compareLoop]
  | cons nc rest ih =>
    intro row hrow
    simp only [compareLoop, List.mem_cons] at hrow
    rcases hrow with rfl | hmem
    · constructor
      · intro h0
        dsimp only at h0 ⊢
        rw [h0]
        norm_num
      · intro hne
        have hpos := Nat.pos_of_ne_zero hne
        simp only [if_pos hpos]
        push_cast
        ring
    · exact ih row hmem

theorem compareLoop_pct_change_witness :
    ((⟨"execute.md", 0, 7000, 7000, 0⟩ : DeltaRow)
        ∈ (compareLoop [] [("execute.md", ⟨7000, 180⟩)]).1) ∧
    (((⟨"execute.md", 0, 7000, 7000, 0⟩ : DeltaRow).baseline_tokens = 0 →
        (⟨"execute.md", 0, 7000, 7000, 0⟩ : DeltaRow).pct_change = 0) ∧
     ((⟨"execute.md", 0, 7000, 7000, 0⟩ : DeltaRow).baseline_tokens ≠ 0 →
        (⟨"execute.md", 0, 7000, 7000, 0⟩ : DeltaRow).pct_change =
          (((⟨"execute.md", 0, 7000, 7000, 0⟩ : DeltaRow).current_tokens : ℚ)
              - ((⟨"execute.md", 0, 7000, 7000, 0⟩ : DeltaRow).baseline_tokens : ℚ))
            / ((⟨"execute.md", 0, 7000, 7000, 0⟩ : DeltaRow).baseline_tokens : ℚ)
            * 100)) :=
  ⟨by decide,
   compareLoop_pct_change [] [("execute.md", ⟨7000, 180⟩)]
     ⟨"execute.md", 0, 7000, 7000, 0⟩ (by decide)⟩

theorem compareLoop_totals (bl : List (String × CommandMetric))
    (cur : List (String × FileMetric)) :
    (compareLoop bl cur).2.1
      = ((compareLoop bl cur).1.map fun d => d.baseline_tokens).sum ∧
    (compareLoop bl cur).2.2
      = ((compareLoop bl cur).1.map fun d => d.current_tokens).sum := by
  induction cur with
  | nil => simp [compareLoop]
  | cons nc rest ih => simp [compareLoop, ih.1, ih.2]

/-- C7: in every completed comparison, the total row's current tokens equal
the sum of the rows' current tokens, and its baseline tokens equal the sum
of the rows' baseline tokens. -/
theorem compare_total_row (bl : List (String × CommandMetric))
    (cur : List (String × FileMetric)) (r : ComparisonResult)
    (h : compareCore bl cur = some r) :
    r.total_current = (r.rows.map fun d => d.current_tokens).sum ∧
    r.total_baseline = (r.rows.map fun d => d.baseline_tokens).sum := by
  simp only [compareCore] at h
  split at h
  · injection h with h
    subst h
    exact ⟨(compareLoop_totals bl cur).2, (compareLoop_totals bl cur).1⟩
  · exact absurd h (by simp)

theorem compare_total_row_witness :
    compareCore [("execute.md", ⟨".claude/commands/tiki/execute.md", 0, 0⟩)]
        [("execute.md", ⟨0, 0⟩)]
      = some ⟨[⟨"execute.md", 0, 0, 0, 0⟩], 0, 0, 0, 0, 6115, 6115, 0, 0⟩ ∧
    ((⟨[⟨"execute.md", 0, 0, 0, 0⟩], 0, 0, 0, 0, 6115, 6115, 0, 0⟩
        : ComparisonResult).total_current
      = (([⟨"execute.md", 0, 0, 0, 0⟩] : List DeltaRow).map
          fun d => d.current_tokens).sum ∧
     (⟨[⟨"execute.md", 0, 0, 0, 0⟩], 0, 0, 0, 0, 6115, 6115, 0, 0⟩
        : ComparisonResult).total_baseline
      = (([⟨"execute.md", 0, 0, 0, 0⟩] : List DeltaRow).map
          fun d => d.baseline_tokens).sum) := by
  have h : compareCore
      [("execute.md", ⟨".claude/commands/tiki/execute.md", 0, 0⟩)]
      [("execute.md", ⟨0, 0⟩)]
      = some ⟨[⟨"execute.md", 0, 0, 0, 0⟩], 0, 0, 0, 0, 6115, 6115, 0, 0⟩ := by
    norm_num [compareCore, compareLoop, lookupBaselineTokens, List.lookup,
      ComparisonResult.mk.injEq, DeltaRow.mk.injEq]
  exact ⟨h,
    compare_total_row [("execute.md", ⟨".claude/commands/tiki/execute.md", 0, 0⟩)]
      [("execute.md", ⟨0, 0⟩)]
      ⟨[⟨"execute.md", 0, 0, 0, 0⟩], 0, 0, 0, 0, 6115, 6115, 0, 0⟩ h⟩

/-- C5: when the baseline file does not exist, `load_baseline` signals
not-found with the guidance on producing a baseline, and `main` returns that
guidance without computing any comparison and without an uncaught error. -/
theorem compareMain_missing_baseline (tok : Tok) (fs : FS) :
    load_baseline none = LoadResult.notFound baselineGuidance ∧
    compareMain none tok fs = CompareOutput.noBaseline baselineGuidance :=
  ⟨rfl, rfl⟩

/-- C1 counterexample: `execute.md` is present in the current command map but
absent from the drifted baseline's command map, and the comparison run ends
in an uncaught `KeyError` (from the raw index
`baseline['commands']['execute.md']` in the effective-savings block), so
compare does not complete without error for every such pair. -/
theorem compareMain_keyError_missing_execute :
    ("execute.md" ∈ (measure_current (fun _ => 0) (fun _ => none)).map Prod.fst) ∧
    baselineNoExec.commands.lookup "execute.md" = none ∧
    compareMain (some baselineNoExec) (fun _ => 0) (fun _ => none)
      = CompareOutput.keyError :=
  ⟨by decide, by decide, rfl⟩

theorem compareLoop_default_zero (bl : List (String × CommandMetric))
    (cur : List (String × FileMetric)) :
    ∀ row ∈ (compareLoop bl cur).1,
      bl.lookup row.name = none → row.baseline_tokens = 0 := by
  induction cur with
  | nil => simp [compareLoop]
  | cons nc rest ih =>
    intro row hrow
    simp only [compareLoop, List.mem_cons] at hrow
    rcases hrow with rfl | hmem
    · intro hnone
      simp [lookupBaselineTokens, hnone]
    · exact ih row hmem

/-- C1 (amended): in the per-row comparison, the baseline entry of every
name absent from the baseline command map is treated as a zero-valued metric
(`baseline_tokens = 0`) and the row computation never errors; the comparison
as a whole completes without error provided the designated `execute.md`
entry is present in both command maps (the effective-savings block looks it
up with a raw index). -/
theorem compareCore_schema_drift (bl : List (String × CommandMetric))
    (cur : List (String × FileMetric))
    (hb : (bl.lookup "execute.md").isSome = true)
    (hc : (cur.lookup "execute.md").isSome = true) :
    (compareCore bl cur).isSome = true ∧
    ∀ row ∈ (compareLoop bl cur).1,
      bl.lookup row.name = none → row.baseline_tokens = 0 := by
  constructor
  · obtain ⟨bm, hbm⟩ := Option.isSome_iff_exists.mp hb
    obtain ⟨cm, hcm⟩ := Option.isSome_iff_exists.mp hc
    simp [compareCore, hbm, hcm]
  · exact compareLoop_default_zero bl cur

theorem compareCore_schema_drift_witness :
    ((([("execute.md", ⟨".claude/commands/tiki/execute.md", 100, 10⟩)]
        : List (String × CommandMetric)).lookup "execute.md").isSome = true) ∧
    ((([("execute.md", ⟨80, 8⟩), ("new-command.md", ⟨50, 5⟩)]
        : List (String × FileMetric)).lookup "execute.md").isSome = true) ∧
    ((compareCore [("execute.md", ⟨".claude/commands/tiki/execute.md", 100, 10⟩)]
        [("execute.md", ⟨80, 8⟩), ("new-command.md", ⟨50, 5⟩)]).isSome = true ∧
     ∀ row ∈ (compareLoop
        [("execute.md", ⟨".claude/commands/tiki/execute.md", 100, 10⟩)]
        [("execute.md", ⟨80, 8⟩), ("new-command.md", ⟨50, 5⟩)]).1,
       ([("execute.md", ⟨".claude/commands/tiki/execute.md", 100, 10⟩)]
          : List (String × CommandMetric)).lookup row.name = none →
         row.baseline_tokens = 0) :=
  ⟨by decide, by decide,
   compareCore_schema_drift
     [("execute.md", ⟨".claude/commands/tiki/execute.md", 100, 10⟩)]
     [("execute.md", ⟨80, 8⟩), ("new-command.md", ⟨50, 5⟩)]
     (by decide) (by decide)⟩

theorem decodeCommandMetric_encode (m : CommandMetric) :
    decodeCommandMetric (encodeCommandMetric m) = some m := rfl

theorem decodeCommandEntries_encode (cmds : List (String × CommandMetric)) :
    decodeCommandEntries (cmds.map fun p => (p.1, encodeCommandMetric p.2))
      = some cmds := by
  induction cmds with
  | nil => rfl
  | cons p rest ih =>
    simp [decodeCommandEntries, decodeCommandMetric_encode, ih]

theorem decodeCommands_encode (cmds : List (String × CommandMetric)) :
    decodeCommands (encodeCommands cmds) = some cmds := by
  simp [decodeCommands, encodeCommands, decodeCommandEntries_encode]

theorem decodeFileMetric_encode (m : FileMetric) :
    decodeFileMetric (encodeFileMetric m) = some m := rfl

theorem decodeDirEntries_encode (files : List (String × FileMetric)) :
    decodeDirEntries (files.map fun p => (p.1, encodeFileMetric p.2))
      = some files := by
  induction files with
  | nil => rfl
  | cons p rest ih =>
    simp [decodeDirEntries, decodeFileMetric_encode, ih]

theorem decodeDirFiles_encode (files : List (String × FileMetric)) :
    decodeDirFiles (encodeDirFiles files) = some files := by
  simp [decodeDirFiles, encodeDirFiles, decodeDirEntries_encode]

theorem decodePromptEntries_encode
    (pf : List (String × List (String × FileMetric))) :
    decodePromptEntries (pf.map fun p => (p.1, encodeDirFiles p.2))
      = some pf := by
  induction pf with
  | nil => rfl
  | cons p rest ih =>
    simp [decodePromptEntries, decodeDirFiles_encode, ih]

theorem decodePromptFiles_encode
    (pf : List (String × List (String × FileMetric))) :
    decodePromptFiles (encodePromptFiles pf) = some pf := by
  simp [decodePromptFiles, encodePromptFiles, decodePromptEntries_encode]

theorem decodeInvocation_encode (e : InvocationEstimate) :
    decodeInvocation (encodeInvocation e) = some e := rfl

theorem decodeTotals_encode (t : Totals) :
    decodeTotals (encodeTotals t) = some t := rfl

/-- C4: the baseline store is lossless: serialising any snapshot to the JSON
document written by `measure-context.py --json` and reading it back as
compare-context.py does yields the original record, every integer and string
field intact. -/
theorem load_save_roundtrip (s : Snapshot) :
    decodeSnapshot (encodeSnapshot s) = some s := by
  have hts : jGet (encodeSnapshot s) "timestamp"
      = some (Json.str s.timestamp) := rfl
  have hcj : jGet (encodeSnapshot s) "commands"
      = some (encodeCommands s.commands) := rfl
  have hej : jGet (encodeSnapshot s) "execute_invocation"
      = some (encodeInvocation s.execute_invocation) := rfl
  have hpj : jGet (encodeSnapshot s) "prompt_files"
      = some (encodePromptFiles s.prompt_files) := rfl
  have htj : jGet (encodeSnapshot s) "totals"
      = some (encodeTotals s.totals) := rfl
  simp only [decodeSnapshot, hts, hcj, hej, hpj, htj,
    decodeCommands_encode, decodeInvocation_encode, decodePromptFiles_encode,
    decodeTotals_encode]

/-- C6: on a baseline with `execute.md` at 10000 tokens and a current state
with `execute.md` at 7000 tokens, the effective-savings block yields
`before = 3000 + 10000 + 1115 + 1500 + 500 = 16115`,
`after = 3000 + 7000 + 1115 + 1500 + 500 = 13115`, `savings = 3000`, and a
reduction percentage that prints as 18.6%. -/
theorem compare_effective_savings_scenario :
    ∃ r, compareCore baselineC6 currentC6 = some r ∧
      r.before_total = 16115 ∧ r.after_total = 13115 ∧ r.savings = 3000 ∧
      |r.reduction_pct - 93 / 5| < 1 / 20 := by
  refine ⟨_, rfl, rfl, rfl, rfl, ?_⟩
  norm_num [compareCore, compareLoop, lookupBaselineTokens, baselineC6,
    currentC6, abs_lt]

end Tiki
